import Mathlib

/-!
Verification of the elapsed-time / duration-tracking logic of the
recorder-app repository (web and native voice-memo recorder).

The definitions below are shallow embeddings of the timing and
duration-reconciliation code found in:
  * src/recorder-app/src/hooks/useRecorder.ts   (web recorder hook)
  * src/unnamed/part_001                        (native recorder hook, incl. getFinalDuration)
  * src/unnamed/part_013                        (web player hook: handleTimeUpdate,
                                                 handleLoadedMetadata, handleEnded)
  * src/native/src/hooks/usePlayer.ts           (native player hook: formatPlayTime,
                                                 pausePlayer, resumePlayer)
  * src/unnamed/part_019                        (web Recording screen:
                                                 getDurationFromBlob, handleStopRecording)

JavaScript numbers are modelled by `JSNum` (NaN, the two infinities, and a
finite rational); epoch-millisecond clock readings, which are integers in
practice, are modelled as `Int`.  `Math.floor` on a finite value is `⌊·⌋`
(`Int.floor`); once a value has been floored to an integer, JavaScript's
`Math.floor(a / b)` for positive integer `b` is floor division `Int.fdiv`,
and the `%` operator (truncating remainder, sign of the dividend) is
`Int.tmod`.
-/

/-- A JavaScript number: NaN, +Infinity (`inf true`), -Infinity (`inf false`),
or a finite value (modelled as a rational). -/
inductive JSNum where
  | nan : JSNum
  | inf : Bool → JSNum
  | fin : ℚ → JSNum
deriving DecidableEq, Repr

/-- JavaScript `isFinite`. -/
def JSNum.isFinite : JSNum → Bool
  | .fin _ => true
  | _ => false

/-- The JavaScript comparison `x < 0` (false on NaN, true on -Infinity). -/
def JSNum.ltZero : JSNum → Bool
  | .nan => false
  | .inf b => !b
  | .fin q => q < 0

/-- JavaScript `String.prototype.padStart(2, '0')`. -/
def padStart2 (s : String) : String :=
  if s.length ≥ 2 then s else String.mk (List.replicate (2 - s.length) '0') ++ s

/-- Function `formatRecordTime` from src/recorder-app/src/hooks/useRecorder.ts (identical in
src/unnamed/part_001).  The source applies no validity guard, so the non-finite
branches below record the result of evaluating the source's arithmetic under
JavaScript semantics (`Math.floor(NaN) = NaN`, `Infinity % 3600 = NaN`,
`NaN.toString() = "NaN"`, ...). -/
def formatRecordTime : JSNum → String
  | .fin q =>
      let totalSeconds : Int := ⌊q / 1000⌋
      let hours : Int := Int.fdiv totalSeconds 3600
      let minutes : Int := Int.fdiv (Int.tmod totalSeconds 3600) 60
      let seconds : Int := Int.tmod totalSeconds 60
      padStart2 (toString hours) ++ ":" ++ padStart2 (toString minutes) ++ ":" ++
        padStart2 (toString seconds)
  | .nan => "NaN:NaN:NaN"
  | .inf true => "Infinity:NaN:NaN"
  | .inf false => "-Infinity:NaN:NaN"

/-- Function `formatPlayTime` from src/native/src/hooks/usePlayer.ts: validity guard, then
the same HH:MM:SS computation as `formatRecordTime`. -/
def formatPlayTime (ms : JSNum) : String :=
  if !ms.isFinite || ms.ltZero then "00:00:00"
  else
    match ms with
    | .fin q =>
        let totalSeconds : Int := ⌊q / 1000⌋
        let hours : Int := Int.fdiv totalSeconds 3600
        let minutes : Int := Int.fdiv (Int.tmod totalSeconds 3600) 60
        let seconds : Int := Int.tmod totalSeconds 60
        padStart2 (toString hours) ++ ":" ++ padStart2 (toString minutes) ++ ":" ++
          padStart2 (toString seconds)
    | _ => "00:00:00"

/-- Function `formatPlayTime` from src/unnamed/part_013 (web player): validity guard, then
an MM:SS rendering (`minutes = Math.floor(totalSeconds / 60)`, no hours field). -/
def webFormatPlayTime (ms : JSNum) : String :=
  if !ms.isFinite || ms.ltZero then "00:00"
  else
    match ms with
    | .fin q =>
        let totalSeconds : Int := ⌊q / 1000⌋
        let minutes : Int := Int.fdiv totalSeconds 60
        let seconds : Int := Int.tmod totalSeconds 60
        padStart2 (toString minutes) ++ ":" ++ padStart2 (toString seconds)
    | _ => "00:00"

/-- Modelled from the spec (section 4.1, formatting rule): milliseconds to
HH:MM:SS, zero-padded, with `totalSeconds = floor(ms/1000)`,
`hours = floor(totalSeconds/3600)`, `minutes = floor((totalSeconds%3600)/60)`,
`seconds = totalSeconds%60`.  Used only to compare the source formatters
against the spec's formula. -/
def specFormatHHMMSS (ms : ℚ) : String :=
  let totalSeconds : Int := ⌊ms / 1000⌋
  let hours : Int := Int.fdiv totalSeconds 3600
  let minutes : Int := Int.fdiv (Int.tmod totalSeconds 3600) 60
  let seconds : Int := Int.tmod totalSeconds 60
  padStart2 (toString hours) ++ ":" ++ padStart2 (toString minutes) ++ ":" ++
    padStart2 (toString seconds)

/-! ## Recorder state machine

Embeds the timing logic of `useRecorder` (src/recorder-app/src/hooks/useRecorder.ts;
the native variant in src/unnamed/part_001 has identical timing code and adds
`getFinalDuration`).  `hasRecorder` models `mediaRecorderRef.current !== null`
(resp. `recordingRef.current !== null`); the platform recorder object itself,
the audio stream and the blob plumbing are external collaborators and carry no
timing state.  `now` arguments are the `Date.now()` readings at the moment the
operation runs. -/

structure RecorderClock where
  hasRecorder : Bool
  isRecording : Bool
  isPaused : Bool
  startTime : Int
  pausedTime : Int
  totalPausedTime : Int
  currentPosition : Int
  recordTime : String
deriving DecidableEq, Repr

/-- The hook's initial state (`useState` initialisers and zeroed refs). -/
def initRecorder : RecorderClock :=
  { hasRecorder := false, isRecording := false, isPaused := false,
    startTime := 0, pausedTime := 0, totalPausedTime := 0,
    currentPosition := 0, recordTime := "00:00:00" }

/-- Operation `startRecorder`, success path: the recorder is created, then
`startTimeRef.current = Date.now(); totalPausedTimeRef.current = 0;
pausedTimeRef.current = 0; setIsRecording(true); setIsPaused(false);
setCurrentPosition(0); setRecordTime('00:00:00')`. -/
def startRecorder (now : Int) (s : RecorderClock) : RecorderClock :=
  { s with
    hasRecorder := true
    isRecording := true
    isPaused := false
    startTime := now
    totalPausedTime := 0
    pausedTime := 0
    currentPosition := 0
    recordTime := "00:00:00" }

/-- One firing of the 100 ms display interval.  The interval exists only while
`isRecording && !isPaused` (the effect clears it otherwise), so the update is
guarded: `elapsed = Date.now() - startTimeRef.current - totalPausedTimeRef.current;
setCurrentPosition(elapsed); setRecordTime(formatRecordTime(elapsed))`. -/
def tick (now : Int) (s : RecorderClock) : RecorderClock :=
  if s.isRecording && !s.isPaused then
    let elapsed := now - s.startTime - s.totalPausedTime
    { s with
      currentPosition := elapsed
      recordTime := formatRecordTime (JSNum.fin (elapsed : ℚ)) }
  else s

/-- Operation `pauseRecorder`: guarded by `mediaRecorderRef.current && isRecording && !isPaused`;
records the pause start (`pausedTimeRef.current = Date.now()`) and sets `isPaused`. -/
def pauseRecorder (now : Int) (s : RecorderClock) : RecorderClock :=
  if s.hasRecorder && s.isRecording && !s.isPaused then
    { s with pausedTime := now, isPaused := true }
  else s

/-- Operation `resumeRecorder`: guarded by `mediaRecorderRef.current && isRecording && isPaused`;
accumulates the finished pause interval
(`totalPausedTimeRef.current += Date.now() - pausedTimeRef.current`). -/
def resumeRecorder (now : Int) (s : RecorderClock) : RecorderClock :=
  if s.hasRecorder && s.isRecording && s.isPaused then
    { s with
      totalPausedTime := s.totalPausedTime + (now - s.pausedTime)
      pausedTime := 0
      isPaused := false }
  else s

/-- Operation `stopRecorder` (web): when a recorder exists and `isRecording`, the stop
handler runs `setIsRecording(false); setIsPaused(false)`; otherwise the state
is untouched (only the stored result path is returned). -/
def stopRecorder (s : RecorderClock) : RecorderClock :=
  if s.hasRecorder && s.isRecording then
    { s with isRecording := false, isPaused := false }
  else s

/-- Operation `stopRecorder` (native, src/unnamed/part_001): early-returns when
`recordingRef.current` is null; otherwise also clears the recording handle. -/
def stopRecorderNative (s : RecorderClock) : RecorderClock :=
  if !s.hasRecorder then s
  else
    { s with hasRecorder := false, isRecording := false, isPaused := false }

/-- Operation `resetRecorder`: clears every timing field and display state. -/
def resetRecorder (_s : RecorderClock) : RecorderClock :=
  { hasRecorder := false, isRecording := false, isPaused := false,
    startTime := 0, pausedTime := 0, totalPausedTime := 0,
    currentPosition := 0, recordTime := "00:00:00" }

/-- Query `getFinalDuration` from src/unnamed/part_001: `if (!isRecording) return 0;
return Date.now() - startTimeRef.current - totalPausedTimeRef.current`. -/
def getFinalDuration (now : Int) (s : RecorderClock) : Int :=
  if !s.isRecording then 0
  else now - s.startTime - s.totalPausedTime

/-- Fold a list of interval firings over the state. -/
def runTicks (ts : List Int) (s : RecorderClock) : RecorderClock :=
  ts.foldl (fun s t => tick t s) s


/-! ## Web player (src/unnamed/part_013)

State of the `usePlayer` hook that the three `<audio>` event handlers mutate.
The `<audio>` element itself is an external collaborator: its `paused`/`ended`
flags, `currentTime` (seconds) and `duration` (seconds) are passed to each
handler as arguments.  `durationMs` is an `Int` because every store to it in
the source goes through `Math.floor`. -/

structure PlayerClock where
  isPlaying : Bool
  playTime : String
  duration : String
  currentPosition : Int
  durationMs : Int
deriving DecidableEq, Repr

/-- The hook's initial state (`useState` initialisers). -/
def initPlayer : PlayerClock :=
  { isPlaying := false, playTime := "00:00", duration := "00:00",
    currentPosition := 0, durationMs := 0 }

/-- Handler `handleEnded` from src/unnamed/part_013 (also bound to the native `ended`
event).  `finalPosition` is `audio.currentTime * 1000` read when the handler
runs; the handler also resets the element (`audio.pause(); audio.currentTime = 0`),
so any later handler invocation observes `paused = true` and `currentTime = 0`. -/
def handleEnded (finalPosition : ℚ) (s : PlayerClock) : PlayerClock :=
  let s1 :=
    if s.durationMs = 0 ∧ 0 < finalPosition then
      let finalDuration : Int := ⌊finalPosition⌋
      { s with
        durationMs := finalDuration
        duration := webFormatPlayTime (JSNum.fin (finalDuration : ℚ)) }
    else s
  { s1 with
    isPlaying := false
    currentPosition := 0
    playTime := "00:00" }

/-- The position-update tail of `handleTimeUpdate`: `setCurrentPosition`,
`setPlayTime`, and the low-trust live duration estimate
(`durationMs === 0 && currentTime > 0` branch, estimate
`Math.floor((currentTime + 1) * 1000)`). -/
def handleTimeUpdatePos (ct : ℚ) (current : Int) (s : PlayerClock) : PlayerClock :=
  let s1 :=
    { s with
      currentPosition := current
      playTime := webFormatPlayTime (JSNum.fin (current : ℚ)) }
  if s1.durationMs = 0 ∧ 0 < ct then
    let estimatedDuration : Int := ⌊(ct + 1) * 1000⌋
    if estimatedDuration > s1.durationMs then
      { s1 with
        durationMs := estimatedDuration
        duration := webFormatPlayTime (JSNum.fin (estimatedDuration : ℚ)) }
    else s1
  else s1

/-- Handler `handleTimeUpdate` from src/unnamed/part_013.  Returns the new state and
whether the ended transition (`handleEnded`) fired during this call.
`maxRef` is `maxDurationMsRef.current` (`none` models `undefined`); the inner
`maxDuration` is `none` when the source computes `Infinity`. -/
def handleTimeUpdate (paused ended : Bool) (currentTime audioDuration : JSNum)
    (maxRef : Option ℚ) (s : PlayerClock) : PlayerClock × Bool :=
  if paused || ended then (s, false)
  else
    match currentTime with
    | .fin ct =>
      if 0 ≤ ct then
        let current : Int := ⌊ct * 1000⌋
        let fallbackMax : Option ℚ :=
          if 0 < s.durationMs then some (s.durationMs : ℚ)
          else
            match audioDuration with
            | .fin ad => if 0 < ad then some (ad * 1000) else none
            | _ => none
        let maxDuration : Option ℚ :=
          match maxRef with
          | some m => if 0 < m then some m else fallbackMax
          | none => fallbackMax
        match maxDuration with
        | some mx =>
          if 0 < mx ∧ (current : ℚ) ≥ mx - 100 then
            if !ended then (handleEnded (ct * 1000) s, true) else (s, false)
          else
            (handleTimeUpdatePos ct current s, false)
        | none => (handleTimeUpdatePos ct current s, false)
      else (s, false)
    | _ => (s, false)

/-- Handler `handleLoadedMetadata` from src/unnamed/part_013.  A valid decoder duration
(finite, `> 0`) is stored as `Math.floor(rawDuration * 1000)`; an invalid one
(NaN, Infinity, `<= 0`) makes the handler store `0` ("keep durationMs at 0 so
the Playback component uses recording.duration"). -/
def handleLoadedMetadata (rawDuration : JSNum) (s : PlayerClock) : PlayerClock :=
  match rawDuration with
  | .fin rd =>
    if 0 < rd then
      let d : Int := ⌊rd * 1000⌋
      { s with
        durationMs := d
        duration := webFormatPlayTime (JSNum.fin (d : ℚ)) }
    else
      { s with durationMs := 0, duration := "00:00" }
  | _ => { s with durationMs := 0, duration := "00:00" }

/-- One `timeupdate` event as observed from the `<audio>` element, together
with the `maxDurationMsRef` value at that moment. -/
structure TimeUpdateEvent where
  paused : Bool
  ended : Bool
  currentTime : JSNum
  audioDuration : JSNum
  maxRef : Option ℚ
deriving Repr

/-- State after one `timeupdate` event (discarding the fired-ended flag). -/
def applyTimeUpdate (e : TimeUpdateEvent) (s : PlayerClock) : PlayerClock :=
  (handleTimeUpdate e.paused e.ended e.currentTime e.audioDuration e.maxRef s).1

/-- Fold a sequence of `timeupdate` events over the player state. -/
def runTimeUpdates (es : List TimeUpdateEvent) (s : PlayerClock) : PlayerClock :=
  es.foldl (fun s e => applyTimeUpdate e s) s

/-! ## Native player controls (src/native/src/hooks/usePlayer.ts)

`pausePlayer` / `resumePlayer` touch only `soundRef.current` (modelled by
`hasSound`) and `isPlaying`; the `pauseAsync`/`playAsync` calls go to the
external sound object. -/

structure NativePlayer where
  hasSound : Bool
  isPlaying : Bool
deriving DecidableEq, Repr

/-- Operation `pausePlayer`: `if (soundRef.current && isPlaying) { ...; setIsPlaying(false) }`. -/
def pausePlayer (s : NativePlayer) : NativePlayer :=
  if s.hasSound && s.isPlaying then { s with isPlaying := false } else s

/-- Operation `resumePlayer`: `if (soundRef.current && !isPlaying) { ...; setIsPlaying(true) }`. -/
def resumePlayer (s : NativePlayer) : NativePlayer :=
  if s.hasSound && !s.isPlaying then { s with isPlaying := true } else s

/-! ## Recording screen controller (src/unnamed/part_019) -/

/-- How the blob probe in `getDurationFromBlob` concluded: the `loadedmetadata`
event fired with `audio.duration` equal to the given value, the `error` event
fired, or the 5-second timeout hit. -/
inductive BlobProbe where
  | metadata (d : JSNum)
  | loadError
  | timeout
deriving Repr

/-- The value `getDurationFromBlob` resolves with (in whole seconds):
`isFinite(duration) && duration > 0 ? Math.floor(duration) : 0`; the error and
timeout paths resolve `0`. -/
def getDurationFromBlob : BlobProbe → Int
  | .metadata (.fin q) => if 0 < q then ⌊q⌋ else 0
  | .metadata _ => 0
  | .loadError => 0
  | .timeout => 0

/-- The duration (whole seconds) that `handleStopRecording` persists:
`duration = Math.floor(recordedDurationMs / 1000)` from the recorder hook's
`getFinalDuration()` (read before `stopRecorder()`), with the blob probe as
fallback only when that is `0` (`if (duration === 0 || !isFinite(duration))`;
an `Int` is always finite).  `blobDuration` is the probe's resolved value. -/
def finalSavedDuration (recordedDurationMs : Int) (blobDuration : Int) : Int :=
  let duration := Int.fdiv recordedDurationMs 1000
  if duration = 0 then
    if 0 < blobDuration then blobDuration else duration
  else duration


/-- The session trace of claim C1: `start(); tick*; pause(); tick*; resume();
tick*` (ending with a tick at the stop instant, as the 100 ms cadence places
one there) followed by `stop()`. -/
def c1Run (t0 tp tr ts : Int) (l1 l2 l3 : List Int) : RecorderClock :=
  stopRecorder (runTicks (l3 ++ [ts]) (resumeRecorder tr
    (runTicks l2 (pauseRecorder tp (runTicks l1 (startRecorder t0 initRecorder))))))

/-- Player state with an authoritative duration of 42000 ms already stored. -/
def pc42000 : PlayerClock :=
  { isPlaying := true, playTime := "00:07", duration := "00:42",
    currentPosition := 7000, durationMs := 42000 }

/-- Two later `timeupdate` events (positions 3 s and 10 s, decoder duration
absent resp. infinite). -/
def c6Events : List TimeUpdateEvent :=
  [{ paused := false, ended := false, currentTime := JSNum.fin 3,
     audioDuration := JSNum.nan, maxRef := none },
   { paused := false, ended := false, currentTime := JSNum.fin 10,
     audioDuration := JSNum.inf true, maxRef := none }]

/-- Player state with known duration 5000 ms, position just before the end. -/
def pc5000 : PlayerClock :=
  { isPlaying := true, playTime := "00:04", duration := "00:05",
    currentPosition := 4800, durationMs := 5000 }

/-- The state of claim C9/C10's failing scenario: `start()` at t=0, a display
tick at t=2000, `pause()` at t=2000 — the display freezes at 00:00:02. -/
def c9Paused : RecorderClock :=
  pauseRecorder 2000 (tick 2000 (startRecorder 0 initRecorder))

/-- A session that is recording with 10000 ms of accumulated pause time:
`start()` at t=0, `pause()` at t=2000, `resume()` at t=12000. -/
def c8Running : RecorderClock :=
  resumeRecorder 12000 (pauseRecorder 2000 (startRecorder 0 initRecorder))

/-! ## Evaluation checks on small concrete inputs -/

example : formatRecordTime (JSNum.fin 5000) = "00:00:05" := by
  simp only [formatRecordTime]
  norm_num
  decide
example : formatRecordTime (JSNum.fin (-500)) = "-1:-1:-1" := by
  simp only [formatRecordTime]
  norm_num
  decide
example : formatPlayTime (JSNum.fin 1500) = "00:00:01" := by
  simp only [formatPlayTime]
  norm_num [JSNum.isFinite, JSNum.ltZero]
  decide
example : formatPlayTime JSNum.nan = "00:00:00" := by decide
example : webFormatPlayTime (JSNum.fin 500) = "00:00" := by
  simp only [webFormatPlayTime]
  norm_num [JSNum.isFinite, JSNum.ltZero]
  decide
example :
    (tick 500 (startRecorder 0 initRecorder)).currentPosition = 500 := by decide
example :
    (tick 2500 (resumeRecorder 2200 (pauseRecorder 1200
      (startRecorder 0 initRecorder)))).currentPosition = 1500 := by decide
example : finalSavedDuration 5230 0 = 5 := by decide
example : finalSavedDuration 0 7 = 7 := by decide
example : getDurationFromBlob (BlobProbe.metadata (JSNum.inf true)) = 0 := by decide
example : (pausePlayer { hasSound := true, isPlaying := true }).isPlaying = false := by decide

/-! ## Helper lemmas -/

theorem tick_preserves (t : Int) (s : RecorderClock) :
    (tick t s).isRecording = s.isRecording ∧ (tick t s).isPaused = s.isPaused ∧
    (tick t s).hasRecorder = s.hasRecorder ∧ (tick t s).startTime = s.startTime ∧
    (tick t s).totalPausedTime = s.totalPausedTime ∧
    (tick t s).pausedTime = s.pausedTime := by
  unfold tick
  split <;> simp

theorem runTicks_cons (t : Int) (l : List Int) (s : RecorderClock) :
    runTicks (t :: l) s = runTicks l (tick t s) := rfl

theorem runTicks_preserves (l : List Int) (s : RecorderClock) :
    (runTicks l s).isRecording = s.isRecording ∧ (runTicks l s).isPaused = s.isPaused ∧
    (runTicks l s).hasRecorder = s.hasRecorder ∧ (runTicks l s).startTime = s.startTime ∧
    (runTicks l s).totalPausedTime = s.totalPausedTime ∧
    (runTicks l s).pausedTime = s.pausedTime := by
  induction l generalizing s with
  | nil => exact ⟨rfl, rfl, rfl, rfl, rfl, rfl⟩
  | cons t l ih =>
      rw [runTicks_cons]
      have h1 := ih (tick t s)
      have h2 := tick_preserves t s
      exact ⟨h1.1.trans h2.1, h1.2.1.trans h2.2.1, h1.2.2.1.trans h2.2.2.1,
        h1.2.2.2.1.trans h2.2.2.2.1, h1.2.2.2.2.1.trans h2.2.2.2.2.1,
        h1.2.2.2.2.2.trans h2.2.2.2.2.2⟩

theorem runTicks_paused (l : List Int) (s : RecorderClock) (hp : s.isPaused = true) :
    runTicks l s = s := by
  induction l generalizing s with
  | nil => rfl
  | cons t l ih =>
      rw [runTicks_cons]
      have ht : tick t s = s := by simp [tick, hp]
      rw [ht]
      exact ih s hp

theorem runTicks_append (l1 l2 : List Int) (s : RecorderClock) :
    runTicks (l1 ++ l2) s = runTicks l2 (runTicks l1 s) :=
  List.foldl_append _ _ _ _


/-- C1 (pause/resume neutrality): for every session run as
`start(); ticks; pause(); ticks; resume(); ticks; stop()`, the final elapsed
position equals the wall-clock time spent in Running intervals only
(`elapsed = now - startTime - totalPausedTime`), so a pause of any length
contributes exactly 0; the display shows the formatted value of that elapsed
time. -/
theorem pause_resume_neutrality (t0 tp tr ts : Int) (l1 l2 l3 : List Int)
    (h1 : t0 ≤ tp) (h2 : tp ≤ tr) (h3 : tr ≤ ts) :
    (c1Run t0 tp tr ts l1 l2 l3).currentPosition = (tp - t0) + (ts - tr) ∧
    (c1Run t0 tp tr ts l1 l2 l3).recordTime
      = formatRecordTime (JSNum.fin (((tp - t0) + (ts - tr) : Int) : ℚ)) := by
  set s1 := startRecorder t0 initRecorder with hs1
  have hs1f : s1.isRecording = true ∧ s1.isPaused = false ∧ s1.hasRecorder = true ∧
      s1.startTime = t0 ∧ s1.totalPausedTime = 0 ∧ s1.pausedTime = 0 := by
    simp [hs1, startRecorder]
  set s2 := runTicks l1 s1 with hs2
  have hp2 := runTicks_preserves l1 s1
  have hs2f : s2.isRecording = true ∧ s2.isPaused = false ∧ s2.hasRecorder = true ∧
      s2.startTime = t0 ∧ s2.totalPausedTime = 0 ∧ s2.pausedTime = 0 := by
    rw [hs2]
    exact ⟨hp2.1.trans hs1f.1, hp2.2.1.trans hs1f.2.1, hp2.2.2.1.trans hs1f.2.2.1,
      hp2.2.2.2.1.trans hs1f.2.2.2.1, hp2.2.2.2.2.1.trans hs1f.2.2.2.2.1,
      hp2.2.2.2.2.2.trans hs1f.2.2.2.2.2⟩
  set s3 := pauseRecorder tp s2 with hs3
  have hs3e : s3 = { s2 with pausedTime := tp, isPaused := true } := by
    rw [hs3]
    simp [pauseRecorder, hs2f.1, hs2f.2.1, hs2f.2.2.1]
  have hs3p : s3.isPaused = true := by rw [hs3e]
  have hs4 : runTicks l2 s3 = s3 := runTicks_paused l2 s3 hs3p
  set s5 := resumeRecorder tr s3 with hs5
  have hs5e : s5 = { s3 with
      totalPausedTime := s3.totalPausedTime + (tr - s3.pausedTime)
      pausedTime := 0
      isPaused := false } := by
    rw [hs5]
    have : s3.hasRecorder = true := by rw [hs3e]; exact hs2f.2.2.1
    simp [resumeRecorder, this, hs3p, hs3e, hs2f.1, hs2f.2.2.1]
  have hs5f : s5.isRecording = true ∧ s5.isPaused = false ∧ s5.hasRecorder = true ∧
      s5.startTime = t0 ∧ s5.totalPausedTime = tr - tp := by
    rw [hs5e, hs3e]
    exact ⟨hs2f.1, rfl, hs2f.2.2.1, hs2f.2.2.2.1, by rw [hs2f.2.2.2.2.1]; ring⟩
  set s6 := runTicks l3 s5 with hs6
  have hp6 := runTicks_preserves l3 s5
  have hs6f : s6.isRecording = true ∧ s6.isPaused = false ∧ s6.hasRecorder = true ∧
      s6.startTime = t0 ∧ s6.totalPausedTime = tr - tp := by
    rw [hs6]
    exact ⟨hp6.1.trans hs5f.1, hp6.2.1.trans hs5f.2.1, hp6.2.2.1.trans hs5f.2.2.1,
      hp6.2.2.2.1.trans hs5f.2.2.2.1, hp6.2.2.2.2.1.trans hs5f.2.2.2.2⟩
  have hrun : c1Run t0 tp tr ts l1 l2 l3 = stopRecorder (tick ts s6) := by
    unfold c1Run
    rw [← hs1, ← hs2, ← hs3, hs4, ← hs5, runTicks_append, ← hs6]
    rfl
  have htick : tick ts s6 = { s6 with
      currentPosition := ts - s6.startTime - s6.totalPausedTime
      recordTime := formatRecordTime
        (JSNum.fin ((ts - s6.startTime - s6.totalPausedTime : Int) : ℚ)) } := by
    simp [tick, hs6f.1, hs6f.2.1]
  have harith : ts - s6.startTime - s6.totalPausedTime = (tp - t0) + (ts - tr) := by
    rw [hs6f.2.2.2.1, hs6f.2.2.2.2]
    ring
  have hstop : stopRecorder (tick ts s6) = { tick ts s6 with
      isRecording := false, isPaused := false } := by
    have ha := (tick_preserves ts s6).2.2.1
    have hb := (tick_preserves ts s6).1
    simp [stopRecorder, ha.trans hs6f.2.2.1, hb.trans hs6f.1]
  rw [hrun, hstop]
  constructor
  · show (tick ts s6).currentPosition = (tp - t0) + (ts - tr)
    rw [htick, ← harith]
  · show (tick ts s6).recordTime
      = formatRecordTime (JSNum.fin (((tp - t0) + (ts - tr) : Int) : ℚ))
    rw [htick, ← harith]

/-- C1 witness: `start()` at t=0, `pause()` at t=2000, `resume()` at t=12000,
final tick and `stop()` at t=15000 yield elapsed 5000 ms shown as "00:00:05". -/
theorem pause_resume_neutrality_witness :
    ((0:Int) ≤ 2000 ∧ (2000:Int) ≤ 12000 ∧ (12000:Int) ≤ 15000) ∧
    (c1Run 0 2000 12000 15000 [] [] []).currentPosition = 5000 ∧
    (c1Run 0 2000 12000 15000 [] [] []).recordTime = "00:00:05" := by
  have h := pause_resume_neutrality 0 2000 12000 15000 [] [] []
    (by decide) (by decide) (by decide)
  refine ⟨⟨by decide, by decide, by decide⟩, h.1.trans (by decide), h.2.trans ?_⟩
  have : ((2000 - 0) + (15000 - 12000) : Int) = 5000 := by decide
  rw [this]
  simp only [formatRecordTime]
  norm_num
  decide

/-- C2 (end-of-stream gap closure): if the known duration is still 0 when the
stream ends with final position T > 0, `handleEnded` sets the known duration
to `floor(T)` (and renders it), so the session does not keep an unknown
duration after finishing. -/
theorem end_of_stream_gap_closure (s : PlayerClock) (T : ℚ)
    (h0 : s.durationMs = 0) (hT : 0 < T) :
    (handleEnded T s).durationMs = ⌊T⌋ ∧
    (handleEnded T s).duration = webFormatPlayTime (JSNum.fin ((⌊T⌋ : Int) : ℚ)) := by
  simp [handleEnded, h0, hT]

/-- C2 witness: a session whose duration never arrived (`initPlayer`,
`durationMs = 0`) ending at position 5000 ms is assigned duration 5000 ms. -/
theorem end_of_stream_gap_closure_witness :
    initPlayer.durationMs = 0 ∧ (0:ℚ) < 5000 ∧
    (handleEnded 5000 initPlayer).durationMs = 5000 := by
  have h := end_of_stream_gap_closure initPlayer 5000 (by decide) (by norm_num)
  exact ⟨by decide, by norm_num, h.1.trans (by norm_num)⟩

/-- C3 counterexample: the recorder's formatter (one of the two cited
millisecond-to-timestamp functions) has no validity guard and formats the
negative input -500 ms as "-1:-1:-1", not "00:00:00". -/
theorem formatRecordTime_negative_counterexample :
    formatRecordTime (JSNum.fin (-500)) = "-1:-1:-1" ∧
    formatRecordTime (JSNum.fin (-500)) ≠ "00:00:00" := by
  have h : formatRecordTime (JSNum.fin (-500)) = "-1:-1:-1" := by
    simp only [formatRecordTime]
    norm_num
    decide
  exact ⟨h, by rw [h]; decide⟩

/-- C3 amended: the guarded player formatter `formatPlayTime` returns exactly
"00:00:00" for every invalid input (negative, NaN, or infinite); the recorder's
`formatRecordTime` has no such guard. -/
theorem formatPlayTime_invalid_eq_zero (ms : JSNum)
    (h : (!ms.isFinite || ms.ltZero) = true) : formatPlayTime ms = "00:00:00" := by
  simp [formatPlayTime, h]

/-- C3 witness: NaN, +Infinity and -500 all format as "00:00:00". -/
theorem formatPlayTime_invalid_eq_zero_witness :
    ((!JSNum.nan.isFinite || JSNum.nan.ltZero) = true ∧
      formatPlayTime JSNum.nan = "00:00:00") ∧
    ((!(JSNum.inf true).isFinite || (JSNum.inf true).ltZero) = true ∧
      formatPlayTime (JSNum.inf true) = "00:00:00") ∧
    ((!(JSNum.fin (-500)).isFinite || (JSNum.fin (-500)).ltZero) = true ∧
      formatPlayTime (JSNum.fin (-500)) = "00:00:00") := by
  have hneg : (!(JSNum.fin (-500)).isFinite || (JSNum.fin (-500)).ltZero) = true := by
    norm_num [JSNum.isFinite, JSNum.ltZero]
  exact ⟨⟨by decide, formatPlayTime_invalid_eq_zero _ (by decide)⟩,
    ⟨by decide, formatPlayTime_invalid_eq_zero _ (by decide)⟩,
    ⟨hneg, formatPlayTime_invalid_eq_zero _ hneg⟩⟩

/-- C4 counterexample: the web player's formatter renders the finite
non-negative input 500 ms as the MM:SS string "00:00", not as the HH:MM:SS
string "00:00:00" the claim's formula yields. -/
theorem webFormatPlayTime_not_hhmmss :
    webFormatPlayTime (JSNum.fin 500) = "00:00" ∧
    webFormatPlayTime (JSNum.fin 500) ≠ "00:00:00" := by
  have h : webFormatPlayTime (JSNum.fin 500) = "00:00" := by
    simp only [webFormatPlayTime]
    norm_num [JSNum.isFinite, JSNum.ltZero]
    decide
  exact ⟨h, by rw [h]; decide⟩

/-- C4 amended: for every finite non-negative input, the HH:MM:SS formatters
(the native player's `formatPlayTime` and the recorders' `formatRecordTime`)
return exactly the zero-padded string of the spec's formula; the web player's
formatter uses an MM:SS rendering instead. -/
theorem hhmmss_formatting_rule (q : ℚ) (h : 0 ≤ q) :
    formatPlayTime (JSNum.fin q) = specFormatHHMMSS q ∧
    formatRecordTime (JSNum.fin q) = specFormatHHMMSS q := by
  have hc : (!(JSNum.fin q).isFinite || (JSNum.fin q).ltZero) = false := by
    simp [JSNum.isFinite, JSNum.ltZero, not_lt.mpr h]
  refine ⟨?_, rfl⟩
  simp only [formatPlayTime, hc]
  rfl

/-- C4 witness: 500 ms formats as "00:00:00" and 1500 ms as "00:00:01". -/
theorem hhmmss_formatting_rule_witness :
    ((0:ℚ) ≤ 500 ∧ formatPlayTime (JSNum.fin 500) = "00:00:00") ∧
    ((0:ℚ) ≤ 1500 ∧ formatPlayTime (JSNum.fin 1500) = "00:00:01") := by
  have h1 : (0:ℚ) ≤ 500 := by norm_num
  have h2 : (0:ℚ) ≤ 1500 := by norm_num
  refine ⟨⟨h1, (hhmmss_formatting_rule 500 h1).1.trans ?_⟩,
    ⟨h2, (hhmmss_formatting_rule 1500 h2).1.trans ?_⟩⟩
  · simp only [specFormatHHMMSS]
    norm_num
    decide
  · simp only [specFormatHHMMSS]
    norm_num
    decide

/-- Lemma: `handleEnded` never changes an already-known (nonzero) duration. -/
theorem handleEnded_preserves_durationMs (p : ℚ) (s : PlayerClock)
    (h : s.durationMs ≠ 0) : (handleEnded p s).durationMs = s.durationMs := by
  simp [handleEnded, h]

/-- The position-update tail never changes an already-known (nonzero) duration
(the live-estimate branch is guarded by `durationMs === 0`). -/
theorem handleTimeUpdatePos_preserves_durationMs (ct : ℚ) (current : Int)
    (s : PlayerClock) (h : s.durationMs ≠ 0) :
    (handleTimeUpdatePos ct current s).durationMs = s.durationMs := by
  simp [handleTimeUpdatePos, h]

/-- One `timeupdate` event never changes an already-known (nonzero) duration. -/
theorem applyTimeUpdate_preserves_durationMs (e : TimeUpdateEvent) (s : PlayerClock)
    (h : s.durationMs ≠ 0) : (applyTimeUpdate e s).durationMs = s.durationMs := by
  unfold applyTimeUpdate handleTimeUpdate
  dsimp only
  repeat' split
  all_goals
    first
      | rfl
      | exact handleEnded_preserves_durationMs _ _ h
      | exact handleTimeUpdatePos_preserves_durationMs _ _ _ h

/-- C6 (monotonic trust): once the known duration is set (nonzero), no
sequence of later position updates — in particular no low-trust live
estimate, which runs only while the known duration is still 0 — changes it. -/
theorem monotonic_trust_of_duration (es : List TimeUpdateEvent) (s : PlayerClock)
    (h : s.durationMs ≠ 0) : (runTimeUpdates es s).durationMs = s.durationMs := by
  induction es generalizing s with
  | nil => rfl
  | cons e es ih =>
      have hstep := applyTimeUpdate_preserves_durationMs e s h
      have h2 : (applyTimeUpdate e s).durationMs ≠ 0 := by rw [hstep]; exact h
      have : runTimeUpdates (e :: es) s = runTimeUpdates es (applyTimeUpdate e s) := rfl
      rw [this, ih (applyTimeUpdate e s) h2, hstep]


/-- C6 witness: with 42000 ms known, two later position updates leave the
known duration at 42000 ms. -/
theorem monotonic_trust_of_duration_witness :
    pc42000.durationMs ≠ 0 ∧ (runTimeUpdates c6Events pc42000).durationMs = 42000 := by
  have h : pc42000.durationMs ≠ 0 := by decide
  exact ⟨h, (monotonic_trust_of_duration c6Events pc42000 h).trans (by decide)⟩

/-- C5 (near-end guard): with a finite positive known duration D, a
`timeupdate` whose floored position reaches D - 100 ms skips the position
update and fires the ended transition; a `timeupdate` observed after the
element has ended is a no-op (the duplicate-avoidance guard); and a repeated
`handleEnded` — as a late native `ended` event, which reads the reset
position 0 — leaves the state unchanged. -/
theorem near_end_guard_once :
    (∀ (ct : ℚ) (audioDuration : JSNum) (s : PlayerClock),
      0 < s.durationMs → 0 ≤ ct →
      ((⌊ct * 1000⌋ : Int) : ℚ) ≥ (s.durationMs : ℚ) - 100 →
      handleTimeUpdate false false (JSNum.fin ct) audioDuration none s
        = (handleEnded (ct * 1000) s, true)) ∧
    (∀ (paused : Bool) (currentTime audioDuration : JSNum) (maxRef : Option ℚ)
      (s : PlayerClock),
      handleTimeUpdate paused true currentTime audioDuration maxRef s = (s, false)) ∧
    (∀ (p : ℚ) (s : PlayerClock), handleEnded 0 (handleEnded p s) = handleEnded p s) := by
  refine ⟨?_, ?_, ?_⟩
  · intro ct ad s hd hct hge
    have hdq : (0:ℚ) < (s.durationMs : ℚ) := by exact_mod_cast hd
    simp [handleTimeUpdate, hct, hd, hdq, hge]
  · intro paused currentTime ad maxRef s
    simp [handleTimeUpdate]
  · intro p s
    by_cases hcase : s.durationMs = 0 ∧ 0 < p <;> simp [handleEnded, hcase]


/-- C5 witness: at position 4.95 s (4950 ms ≥ 5000 - 100), the update fires
the ended transition instead of a position update. -/
theorem near_end_guard_once_witness :
    (0 < pc5000.durationMs ∧ (0:ℚ) ≤ 99/20 ∧
      ((⌊(99/20 : ℚ) * 1000⌋ : Int) : ℚ) ≥ (pc5000.durationMs : ℚ) - 100) ∧
    handleTimeUpdate false false (JSNum.fin (99/20)) JSNum.nan none pc5000
      = (handleEnded ((99/20) * 1000) pc5000, true) := by
  have h1 : 0 < pc5000.durationMs := by decide
  have h2 : (0:ℚ) ≤ 99/20 := by norm_num
  have h3 : ((⌊(99/20 : ℚ) * 1000⌋ : Int) : ℚ) ≥ (pc5000.durationMs : ℚ) - 100 := by
    simp only [pc5000]
    norm_num
  exact ⟨⟨h1, h2, h3⟩, near_end_guard_once.1 (99/20) JSNum.nan pc5000 h1 h2 h3⟩

/-- C7 counterexample: with a known duration of 42000 ms already stored, a
non-finite metadata report does not leave it unchanged — `handleLoadedMetadata`
resets it to 0. -/
theorem invalid_metadata_not_ignored :
    pc42000.durationMs = 42000 ∧
    (handleLoadedMetadata (JSNum.inf true) pc42000).durationMs = 0 ∧
    (handleLoadedMetadata (JSNum.inf true) pc42000).durationMs ≠ pc42000.durationMs := by
  exact ⟨rfl, rfl, by decide⟩

/-- C7 amended: an invalid reported duration (NaN, infinite, or ≤ 0) is never
stored — `handleLoadedMetadata` sets the known duration to the unknown
sentinel 0 (so it is unchanged exactly when it was still unknown), and the
blob probe resolves 0, which the stop handler discards in favour of the
recorder's value; a finite positive report is accepted and stored
(`floor(d * 1000)` ms from d seconds of metadata, `floor(d)` s from the blob
probe). -/
theorem duration_report_policy :
    (∀ (s : PlayerClock) (q : ℚ), q ≤ 0 →
      (handleLoadedMetadata (JSNum.fin q) s).durationMs = 0) ∧
    (∀ (s : PlayerClock), (handleLoadedMetadata JSNum.nan s).durationMs = 0) ∧
    (∀ (s : PlayerClock) (b : Bool),
      (handleLoadedMetadata (JSNum.inf b) s).durationMs = 0) ∧
    (∀ (s : PlayerClock) (q : ℚ), 0 < q →
      (handleLoadedMetadata (JSNum.fin q) s).durationMs = ⌊q * 1000⌋) ∧
    (∀ (q : ℚ), q ≤ 0 → getDurationFromBlob (BlobProbe.metadata (JSNum.fin q)) = 0) ∧
    (∀ (b : Bool), getDurationFromBlob (BlobProbe.metadata (JSNum.inf b)) = 0) ∧
    (getDurationFromBlob (BlobProbe.metadata JSNum.nan) = 0) ∧
    (∀ (q : ℚ), 0 < q → getDurationFromBlob (BlobProbe.metadata (JSNum.fin q)) = ⌊q⌋) ∧
    (∀ (rec : Int), finalSavedDuration rec 0 = Int.fdiv rec 1000) := by
  refine ⟨?_, ?_, ?_, ?_, ?_, ?_, rfl, ?_, ?_⟩
  · intro s q hq
    simp [handleLoadedMetadata, not_lt.mpr hq]
  · intro s
    rfl
  · intro s b
    cases b <;> rfl
  · intro s q hq
    simp [handleLoadedMetadata, hq]
  · intro q hq
    simp [getDurationFromBlob, not_lt.mpr hq]
  · intro b
    cases b <;> rfl
  · intro q hq
    simp [getDurationFromBlob, hq]
  · intro rec
    unfold finalSavedDuration
    split <;> simp_all

/-- C7 witness: Infinity is rejected (known duration becomes/stays 0 from the
initial state), 0 s is rejected, and 42 s of metadata is accepted as 42000 ms. -/
theorem duration_report_policy_witness :
    ((0:ℚ) < 42 ∧ (handleLoadedMetadata (JSNum.fin 42) initPlayer).durationMs = 42000) ∧
    (handleLoadedMetadata (JSNum.inf true) initPlayer).durationMs = 0 ∧
    ((0:ℚ) ≤ 0 ∧ (handleLoadedMetadata (JSNum.fin 0) initPlayer).durationMs = 0) := by
  refine ⟨⟨by norm_num, (duration_report_policy.2.2.2.1 initPlayer 42 (by norm_num)).trans ?_⟩,
    duration_report_policy.2.2.1 initPlayer true,
    ⟨le_refl 0, duration_report_policy.1 initPlayer 0 (le_refl 0)⟩⟩
  norm_num

/-- C8 counterexample: `startRecorder` has no state guard, so calling it while
a session is already recording is an invalid transition that is not a no-op —
from a recording state with 10000 ms of accumulated pause time, `start()` at
t=15000 overwrites `startTimeRef` (0 becomes 15000) and zeroes
`totalPausedTimeRef`, changing the state. -/
theorem start_while_recording_not_noop :
    c8Running.isRecording = true ∧
    c8Running.startTime = 0 ∧ c8Running.totalPausedTime = 10000 ∧
    (startRecorder 15000 c8Running).startTime = 15000 ∧
    (startRecorder 15000 c8Running).totalPausedTime = 0 ∧
    startRecorder 15000 c8Running ≠ c8Running := by
  refine ⟨by decide, by decide, by decide, by decide, by decide, by decide⟩

/-- C8 amended (no-throw / no-op invalid transitions): the lifecycle
operations are total functions of the state and never raise; for pause,
resume, stop and reset an invalid transition leaves the state unchanged, and
a repeated pause/resume is a no-op after the first effective call — for the
recorder hooks (cited `pauseRecorder`) and the native player (cited
`pausePlayer`).  `start` is excluded: it is total but unguarded, and called
while already recording it restarts the session clock (see the
counterexample). -/
theorem invalid_transitions_noop :
    (∀ (s : RecorderClock) (t : Int), s.isRecording = false → pauseRecorder t s = s) ∧
    (∀ (s : RecorderClock) (t : Int), s.isPaused = false → resumeRecorder t s = s) ∧
    (∀ (s : RecorderClock) (t u : Int),
      pauseRecorder u (pauseRecorder t s) = pauseRecorder t s) ∧
    (∀ (s : RecorderClock) (t u : Int),
      resumeRecorder u (resumeRecorder t s) = resumeRecorder t s) ∧
    (∀ (s : RecorderClock), s.isRecording = false → stopRecorder s = s) ∧
    (∀ (s : RecorderClock), resetRecorder (resetRecorder s) = resetRecorder s) ∧
    (∀ (s : NativePlayer), s.isPlaying = false → pausePlayer s = s) ∧
    (∀ (s : NativePlayer), pausePlayer (pausePlayer s) = pausePlayer s) ∧
    (∀ (s : NativePlayer), s.isPlaying = true → resumePlayer s = s) ∧
    (∀ (s : NativePlayer), resumePlayer (resumePlayer s) = resumePlayer s) := by
  refine ⟨?_, ?_, ?_, ?_, ?_, fun s => rfl, ?_, ?_, ?_, ?_⟩
  · intro s t h
    simp [pauseRecorder, h]
  · intro s t h
    simp [resumeRecorder, h]
  · intro s t u
    by_cases hg : (s.hasRecorder && s.isRecording && !s.isPaused) = true <;>
      simp [pauseRecorder, hg]
  · intro s t u
    by_cases hg : (s.hasRecorder && s.isRecording && s.isPaused) = true <;>
      simp [resumeRecorder, hg]
  · intro s h
    simp [stopRecorder, h]
  · intro s h
    simp [pausePlayer, h]
  · intro s
    by_cases hg : (s.hasSound && s.isPlaying) = true <;> simp [pausePlayer, hg]
  · intro s h
    simp [resumePlayer, h]
  · intro s
    by_cases hg : (s.hasSound && !s.isPlaying) = true <;> simp [resumePlayer, hg]

/-- C8 witness: pausing while Idle is a no-op, pausing twice freezes nothing
further, and pausing the native player when it is not playing is a no-op. -/
theorem invalid_transitions_noop_witness :
    (initRecorder.isRecording = false ∧ pauseRecorder 5 initRecorder = initRecorder) ∧
    pauseRecorder 9000 (pauseRecorder 2000 (startRecorder 0 initRecorder))
      = pauseRecorder 2000 (startRecorder 0 initRecorder) ∧
    (NativePlayer.mk true false).isPlaying = false ∧
    pausePlayer (NativePlayer.mk true false) = NativePlayer.mk true false := by
  refine ⟨⟨rfl, invalid_transitions_noop.1 initRecorder 5 rfl⟩,
    invalid_transitions_noop.2.2.1 (startRecorder 0 initRecorder) 2000 9000,
    rfl, invalid_transitions_noop.2.2.2.2.2.2.1 (NativePlayer.mk true false) rfl⟩


/-- C9 (code bug): with the session paused since t=2000 (display frozen at
2000 ms), the final stop-time computation `getFinalDuration` at t=10000
returns 10000 ms — it subtracts only completed pause intervals
(`totalPausedTimeRef`), never the in-progress one (`pausedTimeRef`), so the
8000 ms spent paused at stop time are counted as elapsed, contradicting the
spec's "elapsedMs (frozen while paused)". -/
theorem getFinalDuration_includes_ongoing_pause :
    c9Paused.isPaused = true ∧ c9Paused.pausedTime = 2000 ∧
    c9Paused.currentPosition = 2000 ∧
    getFinalDuration 10000 c9Paused = 10000 := by
  refine ⟨by decide, by decide, by decide, by decide⟩

/-- C10 (final-duration query): `getFinalDuration` returns 0 whenever no
recording is active — in particular after `stopRecorder` has run — so the
controller reads it immediately before stopping, and the persisted duration
in whole seconds is `floor(getFinalDuration() / 1000)` whenever that value is
nonzero. -/
theorem final_duration_query_before_stop :
    (∀ (s : RecorderClock) (t : Int), s.isRecording = false →
      getFinalDuration t s = 0) ∧
    (∀ (s : RecorderClock) (t : Int), s.hasRecorder = true →
      getFinalDuration t (stopRecorderNative s) = 0) ∧
    (∀ (s : RecorderClock) (t : Int), s.hasRecorder = true →
      getFinalDuration t (stopRecorder s) = 0) ∧
    (∀ (recMs blob : Int), Int.fdiv recMs 1000 ≠ 0 →
      finalSavedDuration recMs blob = Int.fdiv recMs 1000) := by
  refine ⟨?_, ?_, ?_, ?_⟩
  · intro s t h
    simp [getFinalDuration, h]
  · intro s t h
    simp [getFinalDuration, stopRecorderNative, h]
  · intro s t h
    by_cases hr : s.isRecording = true
    · simp [getFinalDuration, stopRecorder, h, hr]
    · have hr2 : s.isRecording = false := by
        cases hx : s.isRecording
        · rfl
        · exact absurd hx hr
      simp [getFinalDuration, stopRecorder, h, hr2]
  · intro recMs blob h
    unfold finalSavedDuration
    simp [h]

/-- C10 witness: before stopping, a running 5230 ms session persists 5 s
(`floor(5230/1000)`, blob fallback ignored); after stopping (or when idle)
the query returns 0. -/
theorem final_duration_query_before_stop_witness :
    (initRecorder.isRecording = false ∧ getFinalDuration 5230 initRecorder = 0) ∧
    ((startRecorder 0 initRecorder).hasRecorder = true ∧
      getFinalDuration 5230 (stopRecorder (startRecorder 0 initRecorder)) = 0) ∧
    (Int.fdiv 5230 1000 ≠ 0 ∧ finalSavedDuration 5230 7 = 5) := by
  refine ⟨⟨rfl, final_duration_query_before_stop.1 initRecorder 5230 rfl⟩,
    ⟨rfl, final_duration_query_before_stop.2.2.1 (startRecorder 0 initRecorder) 5230 rfl⟩,
    by decide, (final_duration_query_before_stop.2.2.2 5230 7 (by decide)).trans (by decide)⟩
